import Mathlib

/-
  Verification of the HTTP adapter in src/api.py.

  The adapter exposes two operations:
  * list_models             (GET /v1/models)        -- a constant model listing;
  * chat_completions        (POST /v1/chat/completions) -- extracts the last
    user-role message, calls the external pipeline factory create_rag_crew,
    runs kickoff on the returned crew, and wraps the textual result in an
    OpenAI-compatible envelope.

  Messages arrive as Python dicts of type Dict[str, str]; a subscription
  msg["role"] on a dict without that key raises KeyError.  We embed a dict
  as an association list and a subscription as an Except-valued lookup.
  The external pipeline (create_rag_crew / kickoff) is an abstract
  collaborator; it is a parameter of the embedding, and the handler is
  instrumented with the list of arguments passed to create_rag_crew so that
  invocation counts are observable.
-/

namespace RagApi

/-- A Python `Dict[str, str]` (a JSON object with string keys and values),
embedded as an association list.  Dict literals built from JSON have unique
keys, so first-match lookup is the map semantics. -/
abbrev Dict := List (String × String)

/-- Exceptions the handler can raise or propagate: `KeyError(key)` from an
unguarded dict subscription, or an arbitrary exception raised by the external
pipeline (its payload kept abstract as a string). -/
inductive PyExc where
  | keyError (key : String)
  | other (msg : String)
deriving DecidableEq, Repr

/-- Python dict subscription `d[k]`: the stored value, or `KeyError(k)`. -/
def dictGet (d : Dict) (k : String) : Except PyExc String :=
  match d.lookup k with
  | some v => Except.ok v
  | none => Except.error (PyExc.keyError k)

/-- The request model: `class ChatRequest(BaseModel)` with fields
`model: str` and `messages: List[Dict[str, str]]`. -/
structure ChatRequest where
  model : String
  messages : List Dict
deriving DecidableEq, Repr

/-- The `usage` block of the response envelope. -/
structure Usage where
  prompt_tokens : Nat
  completion_tokens : Nat
  total_tokens : Nat
deriving DecidableEq, Repr

/-- The `message` object inside a choice. -/
structure ChatMessageOut where
  role : String
  content : String
deriving DecidableEq, Repr

/-- One element of the `choices` array. -/
structure Choice where
  index : Nat
  message : ChatMessageOut
  finish_reason : String
deriving DecidableEq, Repr

/-- The OpenAI-compatible success envelope built at src/api.py lines 109-127. -/
structure ChatResponse where
  id : String
  object : String
  created : Nat
  model : String
  choices : List Choice
  usage : Usage
deriving DecidableEq, Repr

/-- The body returned by the handler: either the error-shaped body
`{"error": msg}` or a full success envelope. -/
inductive ChatResult where
  | errorBody (msg : String)
  | success (resp : ChatResponse)
deriving DecidableEq, Repr

/-- The generator scan inside
`next((msg["content"] for msg in reversed(request.messages) if msg["role"] == "user"), None)`,
on the already-reversed message list: each step subscripts `msg["role"]`
(possibly raising KeyError), and on the first "user" hit subscripts
`msg["content"]` and yields it. -/
def scanForUser : List Dict → Except PyExc (Option String)
  | [] => Except.ok none
  | msg :: rest => do
    let role ← dictGet msg "role"
    if role = "user" then do
      let content ← dictGet msg "content"
      return some content
    else
      scanForUser rest

/-- The extraction `user_message = next((msg["content"] for msg in
reversed(request.messages) if msg["role"] == "user"), None)`
(src/api.py lines 94-97). -/
def extractUserMessage (messages : List Dict) : Except PyExc (Option String) :=
  scanForUser messages.reverse

/-- The handler of POST /v1/chat/completions (src/api.py lines 88-128),
parametrised by the external pipeline (`create_rag_crew`, `.kickoff()`, and
the `str` conversion of the execution result).  The first component of the
result records the arguments passed to `create_rag_crew`, in order; the
second is the handler outcome (a body, or a propagated exception).
`if not user_message` tests Python truthiness of `Optional[str]`: both
`None` and `""` take the error-body branch. -/
def chat_completions {Crew R : Type} (create_rag_crew : String → Except PyExc Crew)
    (kickoff : Crew → Except PyExc R) (str : R → String) (request : ChatRequest) :
    List String × Except PyExc ChatResult :=
  match extractUserMessage request.messages with
  | Except.error e => ([], Except.error e)
  | Except.ok user_message =>
    match user_message with
    | none => ([], Except.ok (ChatResult.errorBody "No user message found"))
    | some m =>
      if m = "" then
        ([], Except.ok (ChatResult.errorBody "No user message found"))
      else
        ([m],
          match create_rag_crew m with
          | Except.error e => Except.error e
          | Except.ok crew =>
            match kickoff crew with
            | Except.error e => Except.error e
            | Except.ok r =>
              Except.ok (ChatResult.success
                { id := "chatcmpl-123"
                  object := "chat.completion"
                  created := 1677652288
                  model := request.model
                  choices := [{ index := 0
                                message := { role := "assistant", content := str r }
                                finish_reason := "stop" }]
                  usage := { prompt_tokens := 0
                             completion_tokens := 0
                             total_tokens := 0 } }))

/-- The static record returned by the model-listing endpoint. -/
structure ModelDescriptor where
  id : String
  object : String
  created : Nat
  owned_by : String
  permission : List String
  root : String
  parent : Option String
  max_tokens : Nat
  context_length : Nat
deriving DecidableEq, Repr

/-- The body of GET /v1/models. -/
structure ModelListing where
  object : String
  data : List ModelDescriptor
deriving DecidableEq, Repr

/-- The handler of GET /v1/models (src/api.py lines 65-86); it takes no
input, modelled as a function from Unit so that distinct invocations can be
compared. -/
def list_models (_ : Unit) : ModelListing :=
  { object := "list"
    data := [{ id := "app-rag-model"
               object := "model"
               created := 1677652288
               owned_by := "app-rag-model"
               permission := []
               root := "app-rag-model"
               parent := none
               max_tokens := 131072
               context_length := 131072 }] }

/-- Spec-side description of the extraction target (clearly named as such):
the highest-index entry of `messages` whose "role" key maps to "user" —
"the last (highest-index) user-role entry" of the spec. -/
def specLastUser (messages : List Dict) : Option Dict :=
  messages.reverse.find? (fun msg => msg.lookup "role" == some "user")

/-- A trivial instantiation of the external pipeline, used to run the handler
on concrete requests: the crew is the query itself. -/
def idCreate (q : String) : Except PyExc String := Except.ok q

/-- Trivial kickoff for `idCreate`: echoes the crew string. -/
def idKickoff (c : String) : Except PyExc String := Except.ok c

/-- Trivial result-to-text conversion for `idCreate` / `idKickoff`. -/
def idStr (s : String) : String := s

/- ## Helper lemmas -/

theorem exBindOk {α β : Type} (a : α) (f : α → Except PyExc β) :
    ((Except.ok a : Except PyExc α) >>= f) = f a := rfl

theorem exBindErr {α β : Type} (e : PyExc) (f : α → Except PyExc β) :
    ((Except.error e : Except PyExc α) >>= f) = Except.error e := rfl

/-- When every scanned entry has a "role" key, the generator scan agrees with
first-match search: it returns the "content" of the first entry whose role is
"user", or `none` when there is no such entry. -/
theorem scanForUser_eq_find (l : List Dict)
    (h : ∀ msg ∈ l, (msg.lookup "role").isSome) :
    scanForUser l =
      match l.find? (fun msg => msg.lookup "role" == some "user") with
      | none => Except.ok none
      | some msg => Except.map some (dictGet msg "content") := by
  induction l with
  | nil => rfl
  | cons msg rest ih =>
    obtain ⟨r, hr⟩ := Option.isSome_iff_exists.mp (h msg (List.mem_cons_self msg rest))
    have hd : dictGet msg "role" = Except.ok r := by simp [dictGet, hr]
    by_cases hu : r = "user"
    · subst hu
      have hfind : List.find? (fun m => m.lookup "role" == some "user") (msg :: rest)
          = some msg := by simp [hr]
      rw [hfind]
      simp only [scanForUser, hd, exBindOk, if_pos rfl]
      cases hc : dictGet msg "content" with
      | error e => simp [hc, exBindErr, Except.map]
      | ok c => simp [hc, exBindOk, Except.map]
    · have hfind : List.find? (fun m => m.lookup "role" == some "user") (msg :: rest)
          = List.find? (fun m => m.lookup "role" == some "user") rest := by
        simp [hr, hu]
      rw [hfind]
      simp only [scanForUser, hd, exBindOk, if_neg hu]
      exact ih (fun m hm => h m (List.mem_cons_of_mem _ hm))

/-- When every message has a "role" key and the highest-index user-role entry
has "content" `c`, the extraction yields `some c`. -/
theorem extract_of_lastUser (messages : List Dict) (msg : Dict) (c : String)
    (hroles : ∀ m ∈ messages, (m.lookup "role").isSome)
    (hlast : specLastUser messages = some msg)
    (hcontent : msg.lookup "content" = some c) :
    extractUserMessage messages = Except.ok (some c) := by
  unfold extractUserMessage
  rw [scanForUser_eq_find messages.reverse
    (fun m hm => hroles m (List.mem_reverse.mp hm))]
  unfold specLastUser at hlast
  rw [hlast]
  simp [dictGet, hcontent, Except.map]

/-- When every message has a "role" key and none of them is "user", the
extraction yields `none`. -/
theorem extract_of_noUser (messages : List Dict)
    (h : ∀ m ∈ messages, (m.lookup "role").isSome ∧ m.lookup "role" ≠ some "user") :
    extractUserMessage messages = Except.ok none := by
  unfold extractUserMessage
  rw [scanForUser_eq_find messages.reverse
    (fun m hm => (h m (List.mem_reverse.mp hm)).1)]
  have hfind : messages.reverse.find? (fun msg => msg.lookup "role" == some "user")
      = none := by
    rw [List.find?_eq_none]
    intro m hm
    have := (h m (List.mem_reverse.mp hm)).2
    simpa using this
  rw [hfind]

/-- Inversion: every successful body produced by the handler is the fixed
envelope built from the request model and the text of some pipeline result. -/
theorem chat_success_shape {Crew R : Type} (create_rag_crew : String → Except PyExc Crew)
    (kickoff : Crew → Except PyExc R) (str : R → String) (req : ChatRequest)
    (resp : ChatResponse)
    (h : (chat_completions create_rag_crew kickoff str req).2 =
      Except.ok (ChatResult.success resp)) :
    ∃ r : R, resp =
      { id := "chatcmpl-123"
        object := "chat.completion"
        created := 1677652288
        model := req.model
        choices := [{ index := 0
                      message := { role := "assistant", content := str r }
                      finish_reason := "stop" }]
        usage := { prompt_tokens := 0, completion_tokens := 0, total_tokens := 0 } } := by
  unfold chat_completions at h
  split at h
  · simp at h
  · split at h
    · simp at h
    · split at h
      · simp at h
      · split at h
        · simp at h
        · split at h
          · simp at h
          · rename_i r hk
            simp only [Except.ok.injEq, ChatResult.success.injEq] at h
            exact ⟨r, h.symm⟩

/- ## Claims -/

/-- The four-message request used by the spec example: system "x",
user "A", assistant "B", user "C". -/
def req3 : ChatRequest :=
  { model := "m"
    messages := [[("role", "system"), ("content", "x")],
                 [("role", "user"), ("content", "A")],
                 [("role", "assistant"), ("content", "B")],
                 [("role", "user"), ("content", "C")]] }

/-- Claim C1, counterexample to the claim as stated: the request whose single
message is [("role", "user"), ("content", "")] contains an entry with role
"user", yet the handler invokes create_rag_crew zero times (the recorded
argument list is empty), because the truthiness test drops empty content. -/
theorem claim_c1_counterexample :
    (∃ msg ∈ ([[("role", "user"), ("content", "")]] : List Dict),
        msg.lookup "role" = some "user") ∧
    (chat_completions idCreate idKickoff idStr
        { model := "m", messages := [[("role", "user"), ("content", "")]] }).1 = [] :=
  ⟨⟨[("role", "user"), ("content", "")], by simp, rfl⟩, rfl⟩

/-- Claim C1 (amended): for every ChatRequest in which every message has a
"role" key and whose highest-index user-role entry has a "content" key with
non-empty content, the chat-completion operation invokes create_rag_crew
exactly once, and the argument passed to it is that content string. -/
theorem claim_c1 {Crew R : Type} (create_rag_crew : String → Except PyExc Crew)
    (kickoff : Crew → Except PyExc R) (str : R → String)
    (req : ChatRequest) (msg : Dict) (c : String)
    (hroles : ∀ m ∈ req.messages, (m.lookup "role").isSome)
    (hlast : specLastUser req.messages = some msg)
    (hcontent : msg.lookup "content" = some c)
    (hne : c ≠ "") :
    (chat_completions create_rag_crew kickoff str req).1 = [c] := by
  have hx := extract_of_lastUser req.messages msg c hroles hlast hcontent
  unfold chat_completions
  rw [hx]
  simp [hne]

theorem claim_c1_witness :
    specLastUser [[("role", "user"), ("content", "q")]]
        = some [("role", "user"), ("content", "q")] ∧
    (chat_completions idCreate idKickoff idStr
        { model := "m", messages := [[("role", "user"), ("content", "q")]] }).1 = ["q"] :=
  ⟨by decide,
    claim_c1 idCreate idKickoff idStr
      { model := "m", messages := [[("role", "user"), ("content", "q")]] }
      [("role", "user"), ("content", "q")] "q"
      (by decide) (by decide) (by decide) (by decide)⟩

/-- Claim C2, counterexample to the claim as stated: the request whose single
message is the empty dict contains no entry with role "user", yet the handler
does not return the error body: the unguarded subscription msg["role"] raises
KeyError, which is a different outcome from the error-shaped body. -/
theorem claim_c2_counterexample :
    (∀ msg ∈ ([[]] : List Dict), ¬ msg.lookup "role" = some "user") ∧
    (chat_completions idCreate idKickoff idStr
        { model := "m", messages := [[]] }).2
      = Except.error (PyExc.keyError "role") ∧
    (Except.error (PyExc.keyError "role") : Except PyExc ChatResult)
      ≠ Except.ok (ChatResult.errorBody "No user message found") :=
  ⟨by decide, rfl, fun h => Except.noConfusion h⟩

/-- Claim C2 (amended): for every ChatRequest in which every message has a
"role" key and none of those roles equals "user", the handler returns the
body with error message "No user message found" and invokes create_rag_crew
zero times. -/
theorem claim_c2 {Crew R : Type} (create_rag_crew : String → Except PyExc Crew)
    (kickoff : Crew → Except PyExc R) (str : R → String) (req : ChatRequest)
    (h : ∀ m ∈ req.messages, (m.lookup "role").isSome ∧ m.lookup "role" ≠ some "user") :
    chat_completions create_rag_crew kickoff str req
      = ([], Except.ok (ChatResult.errorBody "No user message found")) := by
  have hx := extract_of_noUser req.messages h
  unfold chat_completions
  rw [hx]

theorem claim_c2_witness :
    (∀ m ∈ ([[("role", "assistant"), ("content", "B")]] : List Dict),
        (m.lookup "role").isSome ∧ m.lookup "role" ≠ some "user") ∧
    chat_completions idCreate idKickoff idStr
        { model := "m", messages := [[("role", "assistant"), ("content", "B")]] }
      = ([], Except.ok (ChatResult.errorBody "No user message found")) :=
  ⟨by decide,
    claim_c2 idCreate idKickoff idStr
      { model := "m", messages := [[("role", "assistant"), ("content", "B")]] }
      (by decide)⟩

/-- Claim C3: on the example request (system "x", user "A", assistant "B",
user "C"), the extracted query is exactly "C", and for every pipeline the
argument list recorded for create_rag_crew is exactly ["C"]. -/
theorem claim_c3 :
    extractUserMessage req3.messages = Except.ok (some "C") ∧
    ∀ (Crew R : Type) (create_rag_crew : String → Except PyExc Crew)
      (kickoff : Crew → Except PyExc R) (str : R → String),
      (chat_completions create_rag_crew kickoff str req3).1 = ["C"] :=
  ⟨rfl, fun _ _ _ _ _ => rfl⟩

theorem claim_c3_witness :
    (chat_completions idCreate idKickoff idStr req3).1 = ["C"] :=
  claim_c3.2 String String idCreate idKickoff idStr

/-- Claim C4: when the handler reaches the pipeline (the extraction yields a
non-empty user message), an exception from create_rag_crew, or from kickoff
on the crew it returned, propagates out of the handler unchanged, and the
handler produces no body. -/
theorem claim_c4 {Crew R : Type} (create_rag_crew : String → Except PyExc Crew)
    (kickoff : Crew → Except PyExc R) (str : R → String) (req : ChatRequest)
    (m : String) (e : PyExc)
    (hx : extractUserMessage req.messages = Except.ok (some m)) (hm : m ≠ "") :
    (create_rag_crew m = Except.error e →
      (chat_completions create_rag_crew kickoff str req).2 = Except.error e) ∧
    (∀ crew, create_rag_crew m = Except.ok crew → kickoff crew = Except.error e →
      (chat_completions create_rag_crew kickoff str req).2 = Except.error e) := by
  constructor
  · intro hc
    unfold chat_completions
    rw [hx]
    simp [hm, hc]
  · intro crew hc hk
    unfold chat_completions
    rw [hx]
    simp [hm, hc, hk]

theorem claim_c4_witness :
    extractUserMessage [[("role", "user"), ("content", "hi")]] = Except.ok (some "hi") ∧
    (chat_completions (fun _ => (Except.error (PyExc.other "boom") : Except PyExc String))
        idKickoff idStr
        { model := "m", messages := [[("role", "user"), ("content", "hi")]] }).2
      = Except.error (PyExc.other "boom") :=
  ⟨rfl,
    (claim_c4 (fun _ => Except.error (PyExc.other "boom")) idKickoff idStr
      { model := "m", messages := [[("role", "user"), ("content", "hi")]] }
      "hi" (PyExc.other "boom") rfl (by decide)).1 rfl⟩

/-- Claim C5: the model-listing operation is a pure constant function: every
invocation returns exactly the fixed single-element listing, so any two
invocations return identical output. -/
theorem claim_c5 :
    (∀ u : Unit, list_models u =
      { object := "list"
        data := [{ id := "app-rag-model"
                   object := "model"
                   created := 1677652288
                   owned_by := "app-rag-model"
                   permission := []
                   root := "app-rag-model"
                   parent := none
                   max_tokens := 131072
                   context_length := 131072 }] }) ∧
    (∀ u v : Unit, list_models u = list_models v) :=
  ⟨fun _ => rfl, fun _ _ => rfl⟩

theorem claim_c5_witness :
    list_models () =
      { object := "list"
        data := [{ id := "app-rag-model"
                   object := "model"
                   created := 1677652288
                   owned_by := "app-rag-model"
                   permission := []
                   root := "app-rag-model"
                   parent := none
                   max_tokens := 131072
                   context_length := 131072 }] } :=
  claim_c5.1 ()

/-- A concrete request with one non-empty user message, for concrete runs of
the success path. -/
def reqW : ChatRequest :=
  { model := "m", messages := [[("role", "user"), ("content", "hi")]] }

/-- The envelope the handler builds for `reqW` under the trivial pipeline. -/
def respW : ChatResponse :=
  { id := "chatcmpl-123"
    object := "chat.completion"
    created := 1677652288
    model := "m"
    choices := [{ index := 0
                  message := { role := "assistant", content := "hi" }
                  finish_reason := "stop" }]
    usage := { prompt_tokens := 0, completion_tokens := 0, total_tokens := 0 } }

/-- Claim C6: every successful ChatResponse produced by the handler has
usage.prompt_tokens = 0, usage.completion_tokens = 0, usage.total_tokens = 0,
and total equals prompt plus completion. -/
theorem claim_c6 {Crew R : Type} (create_rag_crew : String → Except PyExc Crew)
    (kickoff : Crew → Except PyExc R) (str : R → String) (req : ChatRequest)
    (resp : ChatResponse)
    (h : (chat_completions create_rag_crew kickoff str req).2
      = Except.ok (ChatResult.success resp)) :
    resp.usage.prompt_tokens = 0 ∧ resp.usage.completion_tokens = 0 ∧
      resp.usage.total_tokens = 0 ∧
      resp.usage.total_tokens = resp.usage.prompt_tokens + resp.usage.completion_tokens := by
  obtain ⟨r, rfl⟩ := chat_success_shape create_rag_crew kickoff str req resp h
  exact ⟨rfl, rfl, rfl, rfl⟩

theorem claim_c6_witness :
    (chat_completions idCreate idKickoff idStr reqW).2
      = Except.ok (ChatResult.success respW) ∧
    (respW.usage.prompt_tokens = 0 ∧ respW.usage.completion_tokens = 0 ∧
      respW.usage.total_tokens = 0 ∧
      respW.usage.total_tokens
        = respW.usage.prompt_tokens + respW.usage.completion_tokens) :=
  ⟨rfl, claim_c6 idCreate idKickoff idStr reqW respW rfl⟩

/-- Claim C7: every successful ChatResponse echoes the request model string
verbatim and has exactly one choice, whose message has role "assistant" and
whose content is the string conversion of the pipeline result, with
finish_reason "stop". -/
theorem claim_c7 {Crew R : Type} (create_rag_crew : String → Except PyExc Crew)
    (kickoff : Crew → Except PyExc R) (str : R → String) (req : ChatRequest)
    (resp : ChatResponse)
    (h : (chat_completions create_rag_crew kickoff str req).2
      = Except.ok (ChatResult.success resp)) :
    resp.model = req.model ∧
      ∃ r : R, resp.choices =
        [{ index := 0
           message := { role := "assistant", content := str r }
           finish_reason := "stop" }] := by
  obtain ⟨r, rfl⟩ := chat_success_shape create_rag_crew kickoff str req resp h
  exact ⟨rfl, r, rfl⟩

theorem claim_c7_witness :
    (chat_completions idCreate idKickoff idStr reqW).2
      = Except.ok (ChatResult.success respW) ∧
    (respW.model = reqW.model ∧
      ∃ r : String, respW.choices =
        [{ index := 0
           message := { role := "assistant", content := idStr r }
           finish_reason := "stop" }]) :=
  ⟨rfl, claim_c7 idCreate idKickoff idStr reqW respW rfl⟩

/-- Claim C8, counterexample to the claim as stated: in the request with
messages user-with-empty-content followed by a dict holding only "content",
the highest-index user-role entry has content "", yet the handler does not
return the error body: the scan meets the trailing message first and its
unguarded msg["role"] raises KeyError. -/
theorem claim_c8_counterexample :
    specLastUser [[("role", "user"), ("content", "")], [("content", "z")]]
      = some [("role", "user"), ("content", "")] ∧
    ([("role", "user"), ("content", "")] : Dict).lookup "content" = some "" ∧
    (chat_completions idCreate idKickoff idStr
        { model := "m"
          messages := [[("role", "user"), ("content", "")], [("content", "z")]] }).2
      = Except.error (PyExc.keyError "role") ∧
    (Except.error (PyExc.keyError "role") : Except PyExc ChatResult)
      ≠ Except.ok (ChatResult.errorBody "No user message found") :=
  ⟨rfl, rfl, rfl, fun h => Except.noConfusion h⟩

/-- Claim C8 (amended): for every ChatRequest in which every message has a
"role" key and whose highest-index user-role entry has "content" equal to
the empty string, the handler returns the body with error message
"No user message found" and invokes create_rag_crew zero times, because it
tests the extracted content for truthiness rather than presence. -/
theorem claim_c8 {Crew R : Type} (create_rag_crew : String → Except PyExc Crew)
    (kickoff : Crew → Except PyExc R) (str : R → String) (req : ChatRequest)
    (msg : Dict)
    (hroles : ∀ m ∈ req.messages, (m.lookup "role").isSome)
    (hlast : specLastUser req.messages = some msg)
    (hcontent : msg.lookup "content" = some "") :
    chat_completions create_rag_crew kickoff str req
      = ([], Except.ok (ChatResult.errorBody "No user message found")) := by
  have hx := extract_of_lastUser req.messages msg "" hroles hlast hcontent
  unfold chat_completions
  rw [hx]
  simp

theorem claim_c8_witness :
    specLastUser [[("role", "user"), ("content", "")]]
      = some [("role", "user"), ("content", "")] ∧
    chat_completions idCreate idKickoff idStr
        { model := "m", messages := [[("role", "user"), ("content", "")]] }
      = ([], Except.ok (ChatResult.errorBody "No user message found")) :=
  ⟨by decide,
    claim_c8 idCreate idKickoff idStr
      { model := "m", messages := [[("role", "user"), ("content", "")]] }
      [("role", "user"), ("content", "")] (by decide) (by decide) rfl⟩

/-- Claim C9: there exist requests accepted by the structural type check
(messages as string-to-string dicts) on which the scan performs an unguarded
dict subscription that raises an uncaught KeyError: one whose message lacks
a "role" key, and one whose user-role message lacks a "content" key. -/
theorem claim_c9 :
    (∃ req : ChatRequest, (chat_completions idCreate idKickoff idStr req).2
      = Except.error (PyExc.keyError "role")) ∧
    (∃ req : ChatRequest, (chat_completions idCreate idKickoff idStr req).2
      = Except.error (PyExc.keyError "content")) :=
  ⟨⟨{ model := "m", messages := [[("content", "x")]] }, rfl⟩,
   ⟨{ model := "m", messages := [[("role", "user")]] }, rfl⟩⟩

/-- Claim C10: every successful ChatResponse carries the hardcoded identifier
"chatcmpl-123" and the hardcoded creation timestamp 1677652288, for every
request and every pipeline. -/
theorem claim_c10 {Crew R : Type} (create_rag_crew : String → Except PyExc Crew)
    (kickoff : Crew → Except PyExc R) (str : R → String) (req : ChatRequest)
    (resp : ChatResponse)
    (h : (chat_completions create_rag_crew kickoff str req).2
      = Except.ok (ChatResult.success resp)) :
    resp.id = "chatcmpl-123" ∧ resp.created = 1677652288 := by
  obtain ⟨r, rfl⟩ := chat_success_shape create_rag_crew kickoff str req resp h
  exact ⟨rfl, rfl⟩

theorem claim_c10_witness :
    (chat_completions idCreate idKickoff idStr reqW).2
      = Except.ok (ChatResult.success respW) ∧
    (respW.id = "chatcmpl-123" ∧ respW.created = 1677652288) :=
  ⟨rfl, claim_c10 idCreate idKickoff idStr reqW respW rfl⟩

end RagApi
